import Mathlib

/-!
Verification of the graph workflow engine in `app/engine/core.py` and the
code-review workflow nodes in `app/workflows/code_review.py`.

The engine is shallowly embedded: Python dicts keyed by strings become
association lists `List (String × _)`, the state threaded through nodes is an
arbitrary type `σ` (the engine never inspects it), exceptions become an
`EngineError`-valued result type, and the unbounded `while` loop of
`GraphEngine._execute` becomes a fuel-indexed interpreter with an explicit
out-of-fuel outcome.
-/

section EngineDefs

variable {σ : Type}

/-- Errors raised by the engine, one constructor per Python exception class
that the code can raise: `ValueError`, `TypeError`, `KeyError`, and an
arbitrary exception escaping the body of a node function. -/
inductive EngineError where
  | valueError (m : String)
  | typeError (m : String)
  | keyError (key : String)
  | nodeError (m : String)
deriving DecidableEq, Repr

/-- The string `str(exc)` that `run_graph` stores in the `error` field of the
run record. For `KeyError`, Python `str` yields the `repr` of the key, i.e.
the key wrapped in single quotes. -/
def EngineError.msg : EngineError → String
  | .valueError m => m
  | .typeError m => m
  | .keyError key => "\x27" ++ key ++ "\x27"
  | .nodeError m => m

/-- The `NodeResult` dataclass of `core.py` (lines 28-32): full successor
state, optional dynamic next node, optional log string. -/
structure NodeResult (σ : Type) where
  state : σ
  next_node : Option String := none
  log : Option String := none
deriving DecidableEq, Repr

/-- The raw value the body of a node function can return, before `_run_node`
normalizes it: a `NodeResult`, a plain state mapping (`dict`), or anything
else (e.g. an integer) — the `isinstance` checks in `_run_node` never inspect
the payload of the last case, so it carries none. -/
inductive RawResult (σ : Type) where
  | nodeResult (r : NodeResult σ)
  | stateDict (s : σ)
  | other
deriving DecidableEq, Repr

/-- A node function: takes the current state and returns a raw result, or
raises (`Except.error` models an exception escaping the node body). The tool
registry argument of the Python signature is closed over by the individual
node functions and never touched by the engine, so it is not threaded here. -/
def NodeFn (σ : Type) : Type := σ → Except String (RawResult σ)

/-- The `GraphDefinition` dataclass of `core.py` (lines 38-44). `nodes` and
`edges` are Python dicts, embedded as association lists. -/
structure GraphDefinition (σ : Type) where
  graph_id : String
  nodes : List (String × NodeFn σ)
  edges : List (String × List String)
  start_node : String
  description : Option String := none

/-- One log entry appended per node execution (`core.py` lines 123-128). -/
structure LogEntry (σ : Type) where
  node : String
  log : Option String
  state_snapshot : σ
deriving DecidableEq, Repr

/-- The `GraphRunRecord` dataclass of `core.py` (lines 47-55). -/
structure GraphRunRecord (σ : Type) where
  run_id : String
  graph_id : String
  current_state : σ
  status : String
  logs : List (LogEntry σ) := []
  current_node : Option String := none
  error : Option String := none
deriving DecidableEq, Repr

/-- Outcome of the execution loop: normal return of `(state, logs)`, an
exception, or fuel exhaustion (the Python loop is unbounded and a
non-terminating graph is a valid input; `fuelOut` marks runs the bounded
interpreter cannot decide). -/
inductive ExecResult (σ : Type) where
  | ok (state : σ) (logs : List (LogEntry σ))
  | error (e : EngineError)
  | fuelOut
deriving DecidableEq, Repr

/-- `GraphEngine._run_node` (`core.py` lines 142-150): a `NodeResult` is used
as-is, a plain dict is wrapped as `NodeResult(state=result)`, anything else
raises `TypeError`; an exception from the node body propagates. -/
def run_node (fn : NodeFn σ) (s : σ) : Except EngineError (NodeResult σ) :=
  match fn s with
  | .error m => .error (.nodeError m)
  | .ok (.nodeResult r) => .ok r
  | .ok (.stateDict d) => .ok { state := d, next_node := none, log := none }
  | .ok .other => .error (.typeError "Node must return NodeResult or dict")

/-- The `ValueError` message raised at `core.py` line 137. -/
def ambiguousMsg (n : String) : String :=
  "Node \x27" ++ n ++ "\x27 has multiple edges but no next_node provided by the node logic"

/-- `GraphEngine._execute` (`core.py` lines 114-140) as a fuel-indexed
interpreter. Each loop iteration: look up the node function
(`graph.nodes[current_node]`, `KeyError` if absent), run it through
`_run_node`, append a log entry, replace the state, then pick the next node —
the `next_node` of the result if not `None`, else the static edge list (error
when it has more than one entry, its sole entry when one, `None` when empty).
The loop guard `while current_node:` tests truthiness, so both `None` and the
empty string end the loop. -/
def executeFuel (g : GraphDefinition σ) (fuel : Nat) (cur : Option String) (s : σ)
    (logs : List (LogEntry σ)) : ExecResult σ :=
  match cur with
  | none => .ok s logs
  | some n =>
    if n = "" then .ok s logs
    else
      match fuel with
      | 0 => .fuelOut
      | fuel' + 1 =>
        match g.nodes.lookup n with
        | none => .error (.keyError n)
        | some fn =>
          match run_node fn s with
          | .error e => .error e
          | .ok r =>
            let logs' := logs ++ [⟨n, r.log, r.state⟩]
            match r.next_node with
            | some nn => executeFuel g fuel' (some nn) r.state logs'
            | none =>
              let cands := (g.edges.lookup n).getD []
              if 1 < cands.length then .error (.valueError (ambiguousMsg n))
              else executeFuel g fuel' cands.head? r.state logs'

/-- `GraphEngine.run_graph` (`core.py` lines 90-112) after the graph lookup:
create the run record with a copy of the initial state and status `running`,
execute; on success set status `completed`, the final state, the logs, and
`current_node := None`; on an exception set only status `failed` and the
error message (state, logs and current_node keep their creation-time values)
and re-raise — the raised error is returned alongside the record, which is
also the object stored in `self._runs` and visible to `get_run`. `none` means
the bounded interpreter ran out of fuel (the Python run would still be in
flight or divergent). -/
def run_graph (fuel : Nat) (g : GraphDefinition σ) (initial_state : σ) (run_id : String) :
    Option (GraphRunRecord σ × Option EngineError) :=
  let run : GraphRunRecord σ :=
    { run_id := run_id, graph_id := g.graph_id, current_state := initial_state,
      status := "running", logs := [], current_node := none, error := none }
  match executeFuel g fuel (some g.start_node) initial_state [] with
  | .ok st logs =>
      some ({ run with
                status := "completed", current_state := st, logs := logs,
                current_node := none }, none)
  | .error e => some ({ run with status := "failed", error := some e.msg }, some e)
  | .fuelOut => none

/-- `GraphEngine.get_run` (`core.py` lines 152-156): look the run record up in
the runs table, `KeyError` when absent. -/
def get_run (runs : List (String × GraphRunRecord σ)) (run_id : String) :
    Except EngineError (GraphRunRecord σ) :=
  match runs.lookup run_id with
  | none => .error (.keyError ("Run \x27" ++ run_id ++ "\x27 not found"))
  | some r => .ok r

/-- A value of the `edges` request mapping before normalization: either a
single node name or a list of names (`core.py` line 80 accepts both). -/
inductive EdgeVal where
  | single (name : String)
  | list (names : List String)
deriving DecidableEq, Repr

/-- Normalization of one edge value (`core.py` line 80): a list is kept, a
single name is wrapped as a one-element list. -/
def normEdge : EdgeVal → List String
  | .single n => [n]
  | .list l => l

/-- Normalization of the whole `edges` mapping (`core.py` line 80). -/
def normalizeEdges (edges : List (String × EdgeVal)) : List (String × List String) :=
  edges.map (fun kv => (kv.1, normEdge kv.2))

/-- Python `repr` of a list of strings, as interpolated into the `ValueError`
message at `core.py` line 76. -/
def pyStrList (l : List String) : String :=
  "[" ++ String.intercalate ", " (l.map (fun s => "\x27" ++ s ++ "\x27")) ++ "]"

/-- The `ValueError` message of `core.py` line 76: names the unknown node and
lists the sorted node-library keys. -/
def unknownNodeMsg (name : String) (lib : List (String × NodeFn σ)) : String :=
  "Unknown node \x27" ++ name ++ "\x27. Available: " ++
    pyStrList ((lib.map Prod.fst).mergeSort (· ≤ ·))

/-- The loop of `core.py` lines 74-77: resolve each requested node name in the
node library, raising `ValueError` at the first unknown name. -/
def buildNodeMap (lib : List (String × NodeFn σ)) :
    List String → Except EngineError (List (String × NodeFn σ))
  | [] => .ok []
  | name :: rest =>
    match lib.lookup name with
    | none => .error (.valueError (unknownNodeMsg name lib))
    | some fn =>
      match buildNodeMap lib rest with
      | .error e => .error e
      | .ok m => .ok ((name, fn) :: m)

/-- `GraphEngine.register_graph` (`core.py` lines 68-88): build the node map
from the library (raising on an unknown name), check the start node is among
the supplied nodes, normalize the edge values, then — only after all checks —
store the new `GraphDefinition` in the graphs table and return the id. The
fresh `uuid4` is passed in as `graph_id`. An error models the Python
exception propagating before the single mutation of `self._graphs` at line
81, so on failure the table of the caller is the unchanged input table. -/
def register_graph (lib : List (String × NodeFn σ)) (graphs : List (String × GraphDefinition σ))
    (nodes : List String) (edges : List (String × EdgeVal)) (start_node : String)
    (graph_id : String) (description : Option String) :
    Except EngineError (List (String × GraphDefinition σ) × String) :=
  match buildNodeMap lib nodes with
  | .error e => .error e
  | .ok node_map =>
    if (node_map.lookup start_node).isNone then
      .error (.valueError ("Start node \x27" ++ start_node ++ "\x27 must be in nodes list"))
    else
      .ok ((graph_id,
            { graph_id := graph_id, nodes := node_map, edges := normalizeEdges edges,
              start_node := start_node, description := description }) :: graphs, graph_id)

end EngineDefs

section ScenarioDefs

/-- A node for the linear-execution scenario: returns its input state with its
own name appended to the `visited` list (the state type is the `visited` list
itself; the empty initial mapping is the empty list) and supplies no
`next_node`. -/
def visitNode (name : String) : NodeFn (List String) :=
  fun s => .ok (.nodeResult { state := s ++ [name], next_node := none, log := none })

/-- The linear graph A→B→C with an empty static edge list at C. -/
def linearGraphABC : GraphDefinition (List String) :=
  { graph_id := "g-abc"
    nodes := [("A", visitNode "A"), ("B", visitNode "B"), ("C", visitNode "C")]
    edges := [("A", ["B"]), ("B", ["C"]), ("C", [])]
    start_node := "A"
    description := none }

/-- A node whose result carries the empty string as `next_node`: not `None`
(Python `result.next_node is not None` is true for the empty string), yet
falsy in the loop guard `while current_node:`. -/
def emptyOverrideNode : NodeFn (List String) :=
  fun s => .ok (.nodeResult { state := s ++ ["A"], next_node := some "", log := none })

/-- A graph whose start node A has static edge list `["B"]` but dynamically
overrides with the empty-string node name. The node named by the empty string
exists in the graph, so if execution continued there it would leave a trace. -/
def emptyOverrideGraph : GraphDefinition (List String) :=
  { graph_id := "g-empty"
    nodes := [("A", emptyOverrideNode), ("B", visitNode "B"), ("", visitNode "empty")]
    edges := [("A", ["B"])]
    start_node := "A"
    description := none }

/-- A node whose static edges say B but whose result redirects to C. -/
def overrideNodeA : NodeFn (List String) :=
  fun s => .ok (.nodeResult { state := s ++ ["A"], next_node := some "C", log := none })

/-- A graph where node A has static edge list `["B"]` while its node function
sets `next_node="C"`. -/
def overrideGraph : GraphDefinition (List String) :=
  { graph_id := "g-override"
    nodes := [("A", overrideNodeA), ("B", visitNode "B"), ("C", visitNode "C")]
    edges := [("A", ["B"]), ("C", [])]
    start_node := "A"
    description := none }

/-- A node that returns its state unchanged, as a plain state mapping, with no
`next_node`. -/
def passNode : NodeFn (List String) :=
  fun s => .ok (.stateDict s)

/-- A graph whose start node A has the ambiguous static edge list
`["B", "C"]` and whose node functions never supply a `next_node`. -/
def ambiguousGraph : GraphDefinition (List String) :=
  { graph_id := "g-amb"
    nodes := [("A", passNode), ("B", visitNode "B"), ("C", visitNode "C")]
    edges := [("A", ["B", "C"])]
    start_node := "A"
    description := none }

/-- A node over `Nat` state that successfully increments the state and returns
it as a plain mapping. -/
def incrNode : NodeFn Nat :=
  fun s => .ok (.stateDict (s + 1))

/-- A node that returns a value that is neither a `NodeResult` nor a state
mapping (e.g. an integer). -/
def badReturnNode : NodeFn Nat :=
  fun _ => .ok .other

/-- A graph where node A completes successfully (snapshot `initial + 1`) and
node B then violates the return contract, failing the run. -/
def failAfterStepGraph : GraphDefinition Nat :=
  { graph_id := "g-fail"
    nodes := [("A", incrNode), ("B", badReturnNode)]
    edges := [("A", ["B"]), ("B", [])]
    start_node := "A"
    description := none }

/-- A two-node library for the registration scenarios. -/
def libAB : List (String × NodeFn (List String)) :=
  [("A", visitNode "A"), ("B", visitNode "B")]

/-- The graph produced by registering `nodes=["A"]`, `edges={"A": ["B"]}`,
`start_node="A"` against `libAB`: the edge target B is not a key of its
`nodes` mapping because registration never validates edge targets. -/
def danglingEdgeGraph : GraphDefinition (List String) :=
  { graph_id := "g-dangle"
    nodes := [("A", visitNode "A")]
    edges := [("A", ["B"])]
    start_node := "A"
    description := none }

end ScenarioDefs

section ReviewDefs

/-- The state threaded through the quality-gate workflow of
`code_review.py`, restricted to the keys that `check_quality` and
`suggest_improvements` read or write. An absent key is `none` (for
`suggestions`, whose only access is `setdefault("suggestions", [])`, absence
and the empty list are observationally equal, so it is a plain list). The
`issues` field stands for the nested count `state.get("issues", {}).get("issues", 0)`.
Python float arithmetic is idealized as exact rational arithmetic. -/
structure ReviewState where
  quality_threshold : Option ℚ := none
  max_iterations : Option Int := none
  iterations : Option Int := none
  issues : Option Int := none
  complexity_score : Option ℚ := none
  quality_score : Option ℚ := none
  suggestions : List String := []
deriving DecidableEq, Repr

/-- Round-half-to-even to an integer, the tie-breaking rule of Python
`round`. -/
def roundHalfEven (q : ℚ) : ℤ :=
  if q - ⌊q⌋ < 1 / 2 then ⌊q⌋
  else if 1 / 2 < q - ⌊q⌋ then ⌊q⌋ + 1
  else if 2 ∣ ⌊q⌋ then ⌊q⌋ else ⌊q⌋ + 1

/-- Python `round(x, 2)` idealized over the rationals. -/
def round2 (q : ℚ) : ℚ := (roundHalfEven (q * 100) : ℚ) / 100

/-- The `check_quality` node of `code_review.py` (lines 55-70): recompute the
quality score, bump the iteration counter, and either stop (no `next_node`,
falling back to the empty static edge list) or redirect dynamically to
`suggest_improvements`. -/
def check_quality : NodeFn ReviewState := fun state =>
  let threshold := state.quality_threshold.getD (7 / 10)
  let max_loops := state.max_iterations.getD 3
  let iterations := state.iterations.getD 0 + 1
  let issues_count := state.issues.getD 0
  let complexity := state.complexity_score.getD 0
  let score := max 0 (1 - (1 / 5) * (issues_count : ℚ) - (3 / 10) * complexity)
  let new_quality := round2 score
  let new_state := { state with quality_score := some new_quality, iterations := some iterations }
  let log := "Quality score " ++ toString new_quality ++ " (iteration " ++ toString iterations ++ ")"
  if threshold ≤ new_quality ∨ max_loops ≤ iterations then
    .ok (.nodeResult { state := new_state, next_node := none, log := some (log ++ " -> stop") })
  else
    .ok (.nodeResult { state := new_state, next_node := some "suggest_improvements",
                       log := some (log ++ " -> continue") })

/-- The `suggest_improvements` node of `code_review.py` (lines 41-52): collect
suggestions from the complexity score and the issue count (with a default when
none apply) and append them to the `suggestions` list; no `next_node`. -/
def suggest_improvements : NodeFn ReviewState := fun state =>
  let complexity := state.complexity_score.getD 0
  let issues_count := state.issues.getD 0
  let fromComplexity : List String :=
    if 7 / 10 < complexity then ["Reduce branching or split large functions."] else []
  let fromIssues : List String :=
    if 0 < issues_count then ["Address flagged code smells."] else []
  let collected := fromComplexity ++ fromIssues
  let suggestions :=
    if collected = [] then ["Looks good, minor refactors only."] else collected
  .ok (.nodeResult
    { state := { state with suggestions := state.suggestions ++ suggestions }
      next_node := none
      log := some ("Added " ++ toString suggestions.length ++ " suggestions") })

/-- The quality-gate loop pattern of the spec: `suggest_improvements` has a
static edge back to `check_quality`; `check_quality` has an empty static edge
list and redirects to `suggest_improvements` via `next_node` until done. -/
def qualityGateGraph : GraphDefinition ReviewState :=
  { graph_id := "g-quality"
    nodes := [("suggest_improvements", suggest_improvements), ("check_quality", check_quality)]
    edges := [("suggest_improvements", ["check_quality"]), ("check_quality", [])]
    start_node := "check_quality"
    description := none }

/-- The initial state of the C8 scenario: `max_iterations = 3`, `iterations`
absent, an issue count `i`, everything else absent. -/
def c8InitState (i : ℤ) : ReviewState :=
  { max_iterations := some 3, issues := some i }

/-- The quality score that `check_quality` computes (and keeps recomputing,
since neither loop node modifies the issue count or the complexity score) in
the C8 scenario. -/
def c8score (i : ℤ) : ℚ :=
  round2 (max 0 (1 - (1 / 5) * (i : ℚ) - (3 / 10) * 0))

end ReviewDefs

section Theorems

/-- One unfolding of the execution loop when the result of the current node
carries a dynamic `next_node`: the loop re-enters at that name with the new
state and the log extended; the static edge list plays no role (it appears in
no hypothesis). -/
theorem executeFuel_step_override {σ : Type} (g : GraphDefinition σ) (fuel : Nat)
    (n : String) (hn : n ≠ "") (fn : NodeFn σ) (hfn : g.nodes.lookup n = some fn)
    (s s' : σ) (c : String) (l : Option String)
    (hr : run_node fn s = .ok { state := s', next_node := some c, log := l })
    (logs : List (LogEntry σ)) :
    executeFuel g (fuel + 1) (some n) s logs =
      executeFuel g fuel (some c) s' (logs ++ [⟨n, l, s'⟩]) := by
  simp only [executeFuel, hn, hfn, hr, if_neg, ite_false]

/-- One unfolding of the execution loop when the result of the current node
carries no `next_node` and the static edge list has at most one entry: the
loop re-enters at the head of the edge list (or terminates when it is
empty). -/
theorem executeFuel_step_edges {σ : Type} (g : GraphDefinition σ) (fuel : Nat)
    (n : String) (hn : n ≠ "") (fn : NodeFn σ) (hfn : g.nodes.lookup n = some fn)
    (s s' : σ) (l : Option String)
    (hr : run_node fn s = .ok { state := s', next_node := none, log := l })
    (hlen : ¬ 1 < ((g.edges.lookup n).getD []).length)
    (logs : List (LogEntry σ)) :
    executeFuel g (fuel + 1) (some n) s logs =
      executeFuel g fuel ((g.edges.lookup n).getD []).head? s' (logs ++ [⟨n, l, s'⟩]) := by
  simp only [executeFuel, hn, hfn, hr, hlen, if_neg, ite_false]

/-- One unfolding of the execution loop when the result of the current node
carries no `next_node` and the static edge list has more than one entry: the
`ValueError` of `core.py` line 137 is raised. -/
theorem executeFuel_step_ambiguous {σ : Type} (g : GraphDefinition σ) (fuel : Nat)
    (n : String) (hn : n ≠ "") (fn : NodeFn σ) (hfn : g.nodes.lookup n = some fn)
    (s s' : σ) (l : Option String)
    (hr : run_node fn s = .ok { state := s', next_node := none, log := l })
    (hlen : 1 < ((g.edges.lookup n).getD []).length)
    (logs : List (LogEntry σ)) :
    executeFuel g (fuel + 1) (some n) s logs = .error (.valueError (ambiguousMsg n)) := by
  simp only [executeFuel, hn, hfn, hr, hlen, if_neg, ite_false, ite_true]

/-- The `_run_node` branch for a node function that returned a `NodeResult`:
it is used as-is. -/
theorem run_node_nodeResult {σ : Type} (fn : NodeFn σ) (s : σ) (r : NodeResult σ)
    (h : fn s = .ok (.nodeResult r)) : run_node fn s = .ok r := by
  simp [run_node, h]

/-- The failure path of `run_graph` (`core.py` lines 108-112): when the
execution loop raises, the record keeps its creation-time state, logs and
current node, only status and error change, and the error is re-raised. -/
theorem run_graph_error {σ : Type} (fuel : Nat) (g : GraphDefinition σ) (init : σ)
    (rid : String) (e : EngineError)
    (h : executeFuel g fuel (some g.start_node) init [] = .error e) :
    run_graph fuel g init rid =
      some ({ run_id := rid, graph_id := g.graph_id, current_state := init, status := "failed",
              logs := [], current_node := none, error := some e.msg }, some e) := by
  unfold run_graph
  rw [h]

/-- Every entry of the node map built by `register_graph` is the entry of the
node library under the same name. -/
theorem buildNodeMap_sub {σ : Type} (lib : List (String × NodeFn σ)) :
    ∀ (ns : List String) (m : List (String × NodeFn σ)), buildNodeMap lib ns = .ok m →
      ∀ name fn, m.lookup name = some fn → lib.lookup name = some fn := by
  intro ns
  induction ns with
  | nil =>
    intro m hm name fn hl
    simp only [buildNodeMap, Except.ok.injEq] at hm
    subst hm
    simp [List.lookup] at hl
  | cons n rest ih =>
    intro m hm name fn hl
    rcases h1 : lib.lookup n with _ | fn₀ <;> simp only [buildNodeMap, h1] at hm
    · simp at hm
    · rcases h2 : buildNodeMap lib rest with e | m' <;> rw [h2] at hm
      · simp at hm
      · simp only [Except.ok.injEq] at hm
        subst hm
        by_cases hname : (name == n) = true
        · have heq : name = n := eq_of_beq hname
          subst heq
          simp only [List.lookup, beq_self_eq_true] at hl
          rw [h1, hl]
        · have hf : (name == n) = false := by simpa using hname
          simp only [List.lookup, hf] at hl
          exact ih m' h2 name fn hl

/-- A name has an entry in the node map built by `register_graph` exactly when
it occurs in the requested `nodes` list. -/
theorem buildNodeMap_keys {σ : Type} (lib : List (String × NodeFn σ)) :
    ∀ (ns : List String) (m : List (String × NodeFn σ)), buildNodeMap lib ns = .ok m →
      ∀ k, (m.lookup k).isSome = true ↔ k ∈ ns := by
  intro ns
  induction ns with
  | nil =>
    intro m hm k
    simp only [buildNodeMap, Except.ok.injEq] at hm
    subst hm
    simp [List.lookup]
  | cons n rest ih =>
    intro m hm k
    rcases h1 : lib.lookup n with _ | fn₀ <;> simp only [buildNodeMap, h1] at hm
    · simp at hm
    · rcases h2 : buildNodeMap lib rest with e | m' <;> rw [h2] at hm
      · simp at hm
      · simp only [Except.ok.injEq] at hm
        subst hm
        by_cases hname : (k == n) = true
        · have heq : k = n := eq_of_beq hname
          subst heq
          simp [List.lookup]
        · have hf : (k == n) = false := by simpa using hname
          have hne : ¬ k = n := by simpa using hname
          simp only [List.lookup, hf, List.mem_cons]
          rw [ih m' h2 k]
          simp [hne]

/-- When some requested node name is missing from the library, `buildNodeMap`
raises the `ValueError` of `core.py` line 76 for the first such name. -/
theorem buildNodeMap_unknown {σ : Type} (lib : List (String × NodeFn σ)) :
    ∀ ns : List String, (∃ name ∈ ns, lib.lookup name = none) →
      ∃ bad ∈ ns, lib.lookup bad = none ∧
        buildNodeMap lib ns = .error (.valueError (unknownNodeMsg bad lib)) := by
  intro ns
  induction ns with
  | nil => rintro ⟨name, hmem, -⟩; simp at hmem
  | cons n rest ih =>
    rintro ⟨name, hmem, hnone⟩
    rcases h1 : lib.lookup n with _ | fn₀
    · exact ⟨n, by simp, h1, by simp [buildNodeMap, h1]⟩
    · have hname : name ∈ rest := by
        rcases List.mem_cons.mp hmem with h | h
        · subst h; rw [h1] at hnone; cases hnone
        · exact h
      obtain ⟨bad, hbmem, hbnone, hbeq⟩ := ih ⟨name, hname, hnone⟩
      exact ⟨bad, List.mem_cons_of_mem n hbmem, hbnone, by simp [buildNodeMap, h1, hbeq]⟩

/-- When every requested node name resolves in the library, `buildNodeMap`
succeeds. -/
theorem buildNodeMap_ok {σ : Type} (lib : List (String × NodeFn σ)) :
    ∀ ns : List String, (∀ name ∈ ns, (lib.lookup name).isSome = true) →
      ∃ m, buildNodeMap lib ns = .ok m := by
  intro ns
  induction ns with
  | nil => exact fun _ => ⟨[], rfl⟩
  | cons n rest ih =>
    intro h
    rcases h1 : lib.lookup n with _ | fn₀
    · have := h n (by simp)
      rw [h1] at this
      cases this
    · obtain ⟨m', hm'⟩ := ih fun name hmem => h name (List.mem_cons_of_mem n hmem)
      exact ⟨(n, fn₀) :: m', by simp [buildNodeMap, h1, hm']⟩

/-- C1: running the linear graph A→B→C from the empty state completes with
final state `{"visited": ["A","B","C"]}` and exactly three log entries, one
per node in execution order A, B, C, each snapshotting the full state after
that node ran. -/
theorem c1_linear_execution :
    run_graph 10 linearGraphABC [] "r1" =
      some ({ run_id := "r1", graph_id := "g-abc", current_state := ["A", "B", "C"],
              status := "completed",
              logs := [⟨"A", none, ["A"]⟩, ⟨"B", none, ["A", "B"]⟩,
                       ⟨"C", none, ["A", "B", "C"]⟩],
              current_node := none, error := none }, none) := by
  rfl

/-- C2 counterexample: the node function of A returns `next_node=""` — not
null in Python (`"" is not None`), so the claim asserts the loop continues at
the node named by the empty string (which exists in this graph). Instead the
run completes right after A with a single log entry: the loop guard
`while current_node:` treats the empty string as false. The edge list `["B"]`
is still not consulted. -/
theorem c2_counterexample :
    emptyOverrideNode [] =
        .ok (.nodeResult { state := ["A"], next_node := some "", log := none }) ∧
    (emptyOverrideGraph.nodes.lookup "").isSome = true ∧
    emptyOverrideGraph.edges.lookup "A" = some ["B"] ∧
    run_graph 10 emptyOverrideGraph [] "r2" =
      some ({ run_id := "r2", graph_id := "g-empty", current_state := ["A"],
              status := "completed", logs := [⟨"A", none, ["A"]⟩],
              current_node := none, error := none }, none) :=
  ⟨rfl, rfl, rfl, rfl⟩

/-- C2 (amended): whenever the result of the current node carries a non-null
`next_node`, `current_node` is set to it and the static edge list is not
consulted (the conclusion holds for every `g.edges`); execution continues at
that node when the name is non-empty, while an empty-string `next_node` ends
the loop and completes the run, because the guard `while current_node:`
treats the empty string as false. -/
theorem c2_dynamic_override {σ : Type} (g : GraphDefinition σ) (fuel : Nat)
    (n : String) (hn : n ≠ "") (fn : NodeFn σ) (hfn : g.nodes.lookup n = some fn)
    (s s' : σ) (c : String) (l : Option String)
    (hr : run_node fn s = .ok { state := s', next_node := some c, log := l })
    (logs : List (LogEntry σ)) :
    executeFuel g (fuel + 1) (some n) s logs =
        executeFuel g fuel (some c) s' (logs ++ [⟨n, l, s'⟩]) ∧
    (c = "" → executeFuel g (fuel + 1) (some n) s logs = .ok s' (logs ++ [⟨n, l, s'⟩])) := by
  refine ⟨executeFuel_step_override g fuel n hn fn hfn s s' c l hr logs, fun hc => ?_⟩
  rw [executeFuel_step_override g fuel n hn fn hfn s s' c l hr logs, hc]
  cases fuel <;> simp [executeFuel]

/-- C2 witness: in `overrideGraph`, node A has static edge list `["B"]` but
its result sets `next_node="C"`: execution transfers to C, not B. -/
theorem c2_witness :
    executeFuel overrideGraph (3 + 1) (some "A") [] [] =
        executeFuel overrideGraph 3 (some "C") ["A"] ([] ++ [⟨"A", none, ["A"]⟩]) ∧
    (("C" : String) = "" →
      executeFuel overrideGraph (3 + 1) (some "A") [] [] =
        .ok ["A"] ([] ++ [⟨"A", none, ["A"]⟩])) :=
  c2_dynamic_override overrideGraph 3 "A" (by decide) overrideNodeA rfl [] ["A"] "C" none
    rfl []

/-- C3: when the current node has more than one static outgoing edge and its
result supplies no `next_node`, the loop raises a `ValueError` whose message
names the node and contains the phrase "has multiple edges but no next_node
provided", and whenever the execution loop of a run raises, the run record
gets status `failed` with the message captured. -/
theorem c3_ambiguous_edge_failure {σ : Type} (g : GraphDefinition σ) (fuel : Nat)
    (n : String) (hn : n ≠ "") (fn : NodeFn σ) (hfn : g.nodes.lookup n = some fn)
    (s s' : σ) (l : Option String)
    (hr : run_node fn s = .ok { state := s', next_node := none, log := l })
    (hlen : 1 < ((g.edges.lookup n).getD []).length)
    (logs : List (LogEntry σ)) :
    (executeFuel g (fuel + 1) (some n) s logs = .error (.valueError (ambiguousMsg n)) ∧
      (∃ a b, ambiguousMsg n = a ++ "has multiple edges but no next_node provided" ++ b) ∧
      (∃ a b, ambiguousMsg n = a ++ n ++ b)) ∧
    ∀ fuel₂ init rid e, executeFuel g fuel₂ (some g.start_node) init [] = .error e →
      ∃ rec, run_graph fuel₂ g init rid = some (rec, some e) ∧
        rec.status = "failed" ∧ rec.error = some e.msg := by
  refine ⟨⟨executeFuel_step_ambiguous g fuel n hn fn hfn s s' l hr hlen logs, ?_, ?_⟩,
    fun fuel₂ init rid e he => ⟨_, run_graph_error fuel₂ g init rid e he, rfl, rfl⟩⟩
  · refine ⟨"Node \x27" ++ n ++ "\x27 ", " by the node logic", ?_⟩
    simp only [ambiguousMsg, String.append_assoc]
    rfl
  · exact ⟨"Node \x27",
      "\x27 has multiple edges but no next_node provided by the node logic", rfl⟩

/-- C3 witness: in `ambiguousGraph`, start node A has edges `["B","C"]` and
returns no `next_node`; the run fails with the ambiguous-edge `ValueError`
and the run record ends up `failed`. -/
theorem c3_witness :
    executeFuel ambiguousGraph (5 + 1) (some "A") [] [] =
        .error (.valueError (ambiguousMsg "A")) ∧
    ∃ rec, run_graph 6 ambiguousGraph [] "r3" =
        some (rec, some (.valueError (ambiguousMsg "A"))) ∧
      rec.status = "failed" ∧
      rec.error = some (EngineError.msg (.valueError (ambiguousMsg "A"))) := by
  have h := c3_ambiguous_edge_failure ambiguousGraph 5 "A" (by decide) passNode rfl [] []
    none rfl (by decide) []
  exact ⟨h.1.1, h.2 6 [] "r3" _ h.1.1⟩

/-- C4 counterexample: in `failAfterStepGraph` from initial state `0`, node A
completes successfully with state snapshot `1`, then node B violates the
return contract and the run fails. The failed record keeps
`current_state = 0`, the initial state — not `1`, the snapshot of the last
successfully completed node, contrary to the claim: the failure path of
`run_graph` (`core.py` lines 108-112) updates only `status` and `error`. -/
theorem c4_counterexample :
    failAfterStepGraph.start_node = "A" ∧
    failAfterStepGraph.nodes.lookup "A" = some incrNode ∧
    run_node incrNode 0 = .ok { state := 1, next_node := none, log := none } ∧
    run_graph 10 failAfterStepGraph 0 "r4" =
      some ({ run_id := "r4", graph_id := "g-fail", current_state := 0, status := "failed",
              logs := [], current_node := none,
              error := some "Node must return NodeResult or dict" },
            some (.typeError "Node must return NodeResult or dict")) ∧
    (0 : Nat) ≠ 1 :=
  ⟨rfl, rfl, rfl, rfl, by decide⟩

/-- C4 (amended): for every run that fails after at least one node step has
completed successfully (here witnessed by the start node succeeding), the run
record transitions to status `failed` with the error message captured, and its
`current_state` remains the copy of the initial state taken at run creation —
the failure path updates only `status` and `error`. -/
theorem c4_failed_run_state {σ : Type} (fuel : Nat) (g : GraphDefinition σ) (init : σ)
    (rid : String) (e : EngineError)
    (hfail : executeFuel g fuel (some g.start_node) init [] = .error e)
    (fn : NodeFn σ) (r : NodeResult σ)
    (hstart : g.nodes.lookup g.start_node = some fn)
    (hstep : run_node fn init = .ok r) :
    run_graph fuel g init rid =
      some ({ run_id := rid, graph_id := g.graph_id, current_state := init,
              status := "failed", logs := [], current_node := none,
              error := some e.msg }, some e) :=
  run_graph_error fuel g init rid e hfail

/-- C4 witness: the amended statement at the concrete failing run of
`failAfterStepGraph`. -/
theorem c4_witness :
    run_graph 10 failAfterStepGraph 0 "r4w" =
      some ({ run_id := "r4w", graph_id := failAfterStepGraph.graph_id, current_state := 0,
              status := "failed", logs := [], current_node := none,
              error := some (EngineError.msg (.typeError "Node must return NodeResult or dict")) },
            some (.typeError "Node must return NodeResult or dict")) :=
  c4_failed_run_state 10 failAfterStepGraph 0 "r4w"
    (.typeError "Node must return NodeResult or dict") rfl incrNode
    { state := 1, next_node := none, log := none } rfl rfl

/-- C10: on the failure path of `run_graph`, the record stored in the runs
table at run creation — the one `get_run` returns — has empty `logs` and null
`current_node` (their creation-time values), `current_state` equal to the
initial-state copy, and only `status` and `error` updated, even when node
steps completed and produced log entries before the failure (the logs are
local to `_execute` and lost when it raises). -/
theorem c10_failure_only_status_error {σ : Type} (fuel : Nat) (g : GraphDefinition σ)
    (init : σ) (rid : String) (e : EngineError)
    (hfail : executeFuel g fuel (some g.start_node) init [] = .error e)
    (runs : List (String × GraphRunRecord σ)) :
    ∃ rec, run_graph fuel g init rid = some (rec, some e) ∧
      rec.logs = [] ∧ rec.current_node = none ∧ rec.current_state = init ∧
      rec.status = "failed" ∧ rec.error = some e.msg ∧
      get_run ((rid, rec) :: runs) rid = .ok rec := by
  refine ⟨_, run_graph_error fuel g init rid e hfail, rfl, rfl, rfl, rfl, rfl, ?_⟩
  simp [get_run, List.lookup]

/-- C10 witness: the failing run of `failAfterStepGraph`, whose node A ran
successfully before node B failed, still shows empty logs and null
current_node via `get_run`. -/
theorem c10_witness :
    ∃ rec, run_graph 10 failAfterStepGraph 0 "r10" =
        some (rec, some (.typeError "Node must return NodeResult or dict")) ∧
      rec.logs = [] ∧ rec.current_node = none ∧ rec.current_state = 0 ∧
      rec.status = "failed" ∧
      rec.error = some (EngineError.msg (.typeError "Node must return NodeResult or dict")) ∧
      get_run [("r10", rec)] "r10" = .ok rec :=
  c10_failure_only_status_error 10 failAfterStepGraph 0 "r10"
    (.typeError "Node must return NodeResult or dict") rfl []

/-- C5 counterexample: `register_graph` accepts `nodes=["A"]`,
`edges={"A": ["B"]}`, `start_node="A"`, yet the static-edge target B — a name
execution reaches after A — is not a key of the `nodes` mapping of the
resulting graph, and the node-function lookup at the top of the loop fails
with a `KeyError` (registration at `core.py` lines 68-88 never validates edge
targets). -/
theorem c5_counterexample :
    register_graph libAB [] ["A"] [("A", EdgeVal.list ["B"])] "A" "g-dangle" none =
        .ok ([("g-dangle", danglingEdgeGraph)], "g-dangle") ∧
    danglingEdgeGraph.edges.lookup "A" = some ["B"] ∧
    danglingEdgeGraph.nodes.lookup "B" = none ∧
    executeFuel danglingEdgeGraph 10 (some "A") [] [] = .error (.keyError "B") ∧
    run_graph 10 danglingEdgeGraph [] "r5" =
      some ({ run_id := "r5", graph_id := "g-dangle", current_state := [],
              status := "failed", logs := [], current_node := none,
              error := some "\x27B\x27" }, some (.keyError "B")) :=
  ⟨rfl, rfl, rfl, rfl, rfl⟩

/-- C5 (amended): registration guarantees only that every supplied node name
resolves in the node library (each entry of the registered `nodes` mapping is
the library entry of the same name) and that the start node is a key of
`nodes`, so the very first node-function lookup succeeds; static-edge targets
and `next_node` values emitted by nodes are not validated and may name
non-keys, making the loop lookup fail with a `KeyError`. -/
theorem c5_registration_start_guarantee {σ : Type} (lib : List (String × NodeFn σ))
    (graphs : List (String × GraphDefinition σ)) (nodes : List String)
    (edges : List (String × EdgeVal)) (start gid : String) (desc : Option String)
    (gs : List (String × GraphDefinition σ)) (rid : String)
    (h : register_graph lib graphs nodes edges start gid desc = .ok (gs, rid)) :
    ∃ g, gs.lookup rid = some g ∧ g.start_node = start ∧
      (g.nodes.lookup g.start_node).isSome = true ∧
      ∀ name fn, g.nodes.lookup name = some fn → lib.lookup name = some fn := by
  rcases hb : buildNodeMap lib nodes with e | node_map
  · simp [register_graph, hb] at h
  · simp only [register_graph, hb] at h
    by_cases hs : (List.lookup start node_map).isNone = true
    · rw [if_pos hs] at h
      simp at h
    · rw [if_neg hs] at h
      simp only [Except.ok.injEq, Prod.mk.injEq] at h
      obtain ⟨hgs, hrid⟩ := h
      subst hgs
      subst hrid
      refine ⟨{ graph_id := gid, nodes := node_map, edges := normalizeEdges edges,
                start_node := start, description := desc },
        by simp [List.lookup], rfl, ?_, buildNodeMap_sub lib nodes node_map hb⟩
      simpa using hs

/-- C5 witness: the registration of the dangling-edge graph still satisfies
the amended guarantee for its start node. -/
theorem c5_witness :
    ∃ g, ([("g-dangle", danglingEdgeGraph)] : List (String × GraphDefinition (List String))).lookup
          "g-dangle" = some g ∧
      g.start_node = "A" ∧ (g.nodes.lookup g.start_node).isSome = true ∧
      ∀ name fn, g.nodes.lookup name = some fn → libAB.lookup name = some fn :=
  c5_registration_start_guarantee libAB [] ["A"] [("A", EdgeVal.list ["B"])] "A" "g-dangle"
    none [("g-dangle", danglingEdgeGraph)] "g-dangle" rfl

/-- C6: `_run_node` uses a returned `NodeResult` as-is, wraps a plain state
mapping as `NodeResult(state=result)` with null `next_node` and null `log`,
and raises `TypeError` for any other return value; the `TypeError` propagates
out of the loop, and any error raised by the loop marks the run record
`failed`. -/
theorem c6_node_return_contract {σ : Type} (fn : NodeFn σ) (s : σ) :
    (∀ r, fn s = .ok (.nodeResult r) → run_node fn s = .ok r) ∧
    (∀ d, fn s = .ok (.stateDict d) →
      run_node fn s = .ok { state := d, next_node := none, log := none }) ∧
    (fn s = .ok .other →
      run_node fn s = .error (.typeError "Node must return NodeResult or dict")) ∧
    (∀ (g : GraphDefinition σ) n fuel logs, g.nodes.lookup n = some fn → n ≠ "" →
      fn s = .ok .other →
      executeFuel g (fuel + 1) (some n) s logs =
        .error (.typeError "Node must return NodeResult or dict")) ∧
    (∀ fuel (g : GraphDefinition σ) init rid e,
      executeFuel g fuel (some g.start_node) init [] = .error e →
      ∃ rec, run_graph fuel g init rid = some (rec, some e) ∧ rec.status = "failed") := by
  refine ⟨fun r h => by simp [run_node, h], fun d h => by simp [run_node, h],
    fun h => by simp [run_node, h], fun g n fuel logs hfn hn h => ?_,
    fun fuel g init rid e he => ⟨_, run_graph_error fuel g init rid e he, rfl⟩⟩
  have hrn : run_node fn s = .error (.typeError "Node must return NodeResult or dict") := by
    simp [run_node, h]
  simp only [executeFuel, hn, hfn, hrn, if_neg, ite_false]

/-- C6 witness: the three return shapes at concrete nodes — a `NodeResult` is
used as-is, a dict is wrapped, an integer return fails the run with
`TypeError` and a `failed` record. -/
theorem c6_witness :
    run_node (visitNode "A") [] =
        .ok { state := ["A"], next_node := none, log := none } ∧
    run_node incrNode 0 = .ok { state := 1, next_node := none, log := none } ∧
    run_node badReturnNode 1 = .error (.typeError "Node must return NodeResult or dict") ∧
    executeFuel failAfterStepGraph (8 + 1) (some "B") 1 [] =
        .error (.typeError "Node must return NodeResult or dict") ∧
    ∃ rec, run_graph 10 failAfterStepGraph 0 "r6" =
        some (rec, some (.typeError "Node must return NodeResult or dict")) ∧
      rec.status = "failed" := by
  have hA := c6_node_return_contract (visitNode "A") ([] : List String)
  have hI := c6_node_return_contract incrNode 0
  have hB := c6_node_return_contract badReturnNode 1
  exact ⟨hA.1 { state := ["A"], next_node := none, log := none } rfl, hI.2.1 1 rfl,
    hB.2.2.1 rfl, hB.2.2.2.1 failAfterStepGraph "B" 8 [] rfl (by decide) rfl,
    hB.2.2.2.2 10 failAfterStepGraph 0 "r6" _ rfl⟩

/-- C7: registering a graph that names a node absent from the node library
fails with the `ValueError` listing the available (sorted) node names, and
registering with a start node not among the supplied nodes fails with the
start-node `ValueError`; in both cases `register_graph` raises before the
single write to the graphs table (`core.py` line 81), so no graph is created,
fully or partially, and the table is unchanged. -/
theorem c7_registration_validation {σ : Type} (lib : List (String × NodeFn σ))
    (graphs : List (String × GraphDefinition σ)) (nodes : List String)
    (edges : List (String × EdgeVal)) (start gid : String) (desc : Option String) :
    ((∃ name ∈ nodes, lib.lookup name = none) →
      ∃ bad ∈ nodes, lib.lookup bad = none ∧
        register_graph lib graphs nodes edges start gid desc =
          .error (.valueError (unknownNodeMsg bad lib))) ∧
    ((∀ name ∈ nodes, (lib.lookup name).isSome = true) → start ∉ nodes →
      register_graph lib graphs nodes edges start gid desc =
        .error (.valueError ("Start node \x27" ++ start ++ "\x27 must be in nodes list"))) := by
  constructor
  · intro hex
    obtain ⟨bad, hmem, hnone, hbeq⟩ := buildNodeMap_unknown lib nodes hex
    exact ⟨bad, hmem, hnone, by simp [register_graph, hbeq]⟩
  · intro hall hstart
    obtain ⟨m, hm⟩ := buildNodeMap_ok lib nodes hall
    have hkeys := buildNodeMap_keys lib nodes m hm start
    have hnone : (m.lookup start).isNone = true := by
      rcases hli : m.lookup start with _ | v
      · rfl
      · exact absurd (hkeys.mp (by simp [hli])) hstart
    simp [register_graph, hm, hnone]

/-- C7 witness: registering `["A","Z"]` against the A/B library fails with the
unknown-node `ValueError` for Z, and registering `["A"]` with start node B
fails with the start-node `ValueError`. -/
theorem c7_witness :
    (∃ bad ∈ (["A", "Z"] : List String), libAB.lookup bad = none ∧
      register_graph libAB [] ["A", "Z"] [] "A" "g7" none =
        .error (.valueError (unknownNodeMsg bad libAB))) ∧
    register_graph libAB [] ["A"] [] "B" "g7" none =
      .error (.valueError ("Start node \x27B\x27 must be in nodes list")) := by
  refine ⟨(c7_registration_validation libAB [] ["A", "Z"] [] "A" "g7" none).1
      ⟨"Z", by simp, rfl⟩,
    (c7_registration_validation libAB [] ["A"] [] "B" "g7" none).2 ?_ (by simp)⟩
  intro name hmem
  have : name = "A" := by simpa using hmem
  subst this
  rfl

/-- Half-even rounding never goes below the floor. -/
theorem roundHalfEven_ge_floor (q : ℚ) : ⌊q⌋ ≤ roundHalfEven q := by
  unfold roundHalfEven
  split_ifs <;> omega

/-- Rounding to two decimals keeps values at least one at least one. -/
theorem round2_ge_one {x : ℚ} (hx : 1 ≤ x) : 1 ≤ round2 x := by
  have h100 : (100 : ℤ) ≤ ⌊x * 100⌋ := by
    rw [Int.le_floor]
    push_cast
    linarith
  have h2 := roundHalfEven_ge_floor (x * 100)
  unfold round2
  rw [le_div_iff (by norm_num : (0 : ℚ) < 100)]
  have hc : (100 : ℚ) ≤ (roundHalfEven (x * 100) : ℚ) := by exact_mod_cast le_trans h100 h2
  linarith

/-- A below-threshold quality score in the C8 scenario forces a positive
issue count: with no issues the score would be 1, above any 0.7 threshold. -/
theorem c8score_lt_imp_pos {i : ℤ} (h : c8score i < 7 / 10) : 1 ≤ i := by
  by_contra hle
  have hi0 : (i : ℚ) ≤ 0 := by exact_mod_cast by omega
  have hbase : (1 : ℚ) ≤ 1 - 1 / 5 * (i : ℚ) - 3 / 10 * 0 := by linarith
  have hsc : (1 : ℚ) ≤ max 0 (1 - 1 / 5 * (i : ℚ) - 3 / 10 * 0) :=
    le_trans hbase (le_max_right _ _)
  have hone := round2_ge_one hsc
  unfold c8score at h
  linarith

/-- C9: registering an `edges` mapping in which some value is a single name
is interchangeable with registering the same mapping with that value wrapped
as a one-element list: `register_graph` normalizes the single name at
registration time (`core.py` line 80), so the two calls return equal results
— the same graphs table, the same `GraphDefinition`, and hence identical
execution behaviour. -/
theorem c9_edge_value_normalization {σ : Type} (lib : List (String × NodeFn σ))
    (graphs : List (String × GraphDefinition σ)) (nodes : List String) (start gid : String)
    (desc : Option String) (a b : String) (pre post : List (String × EdgeVal)) :
    register_graph lib graphs nodes (pre ++ [(a, EdgeVal.single b)] ++ post) start gid desc =
      register_graph lib graphs nodes (pre ++ [(a, EdgeVal.list [b])] ++ post) start gid
        desc := by
  simp [register_graph, normalizeEdges, normEdge]

/-- C8: in the quality-gate loop (static edge from `suggest_improvements` back
to `check_quality`, dynamic redirect from `check_quality`), starting from a
state with `max_iterations = 3`, `iterations` absent and an issue count whose
(recomputed but loop-invariant) quality score stays below the 0.7 default
threshold, the run terminates — completed, not looping forever — after
exactly 3 executions of `check_quality`, which leave `iterations = 3`. -/
theorem c8_iteration_cap (i : ℤ) (h : c8score i < 7 / 10) :
    ∃ rec, run_graph 10 qualityGateGraph (c8InitState i) "r8" = some (rec, none) ∧
      rec.status = "completed" ∧
      rec.logs.countP (fun e => e.node == "check_quality") = 3 ∧
      rec.current_state.iterations = some 3 := by
  have hi : 1 ≤ i := c8score_lt_imp_pos h
  have hipos : 0 < i := by omega
  have hq : ¬ (7 / 10 : ℚ) ≤ c8score i := not_le.mpr h
  have hcq1 : check_quality (c8InitState i) = .ok (.nodeResult
      { state := { quality_threshold := none, max_iterations := some 3, iterations := some 1,
                   issues := some i, complexity_score := none,
                   quality_score := some (c8score i), suggestions := [] }
        next_node := some "suggest_improvements"
        log := some ("Quality score " ++ toString (c8score i) ++ " (iteration " ++
          toString (1 : ℤ) ++ ")" ++ " -> continue") }) := by
    simp only [check_quality, c8InitState, c8score, Option.getD_none, Option.getD_some] at hq ⊢
    norm_num at hq ⊢
    exact fun hc => absurd hc (not_le.mpr hq)
  have hsi1 : suggest_improvements
      { quality_threshold := none, max_iterations := some 3, iterations := some 1,
        issues := some i, complexity_score := none,
        quality_score := some (c8score i), suggestions := [] } = .ok (.nodeResult
      { state := { quality_threshold := none, max_iterations := some 3, iterations := some 1,
                   issues := some i, complexity_score := none,
                   quality_score := some (c8score i),
                   suggestions := ["Address flagged code smells."] }
        next_node := none
        log := some ("Added " ++ toString (1 : ℕ) ++ " suggestions") }) := by
    simp only [suggest_improvements, Option.getD_none, Option.getD_some]
    norm_num [hipos]
  have hcq2 : check_quality
      { quality_threshold := none, max_iterations := some 3, iterations := some 1,
        issues := some i, complexity_score := none,
        quality_score := some (c8score i),
        suggestions := ["Address flagged code smells."] } = .ok (.nodeResult
      { state := { quality_threshold := none, max_iterations := some 3, iterations := some 2,
                   issues := some i, complexity_score := none,
                   quality_score := some (c8score i),
                   suggestions := ["Address flagged code smells."] }
        next_node := some "suggest_improvements"
        log := some ("Quality score " ++ toString (c8score i) ++ " (iteration " ++
          toString (2 : ℤ) ++ ")" ++ " -> continue") }) := by
    simp only [check_quality, c8score, Option.getD_none, Option.getD_some] at hq ⊢
    norm_num at hq ⊢
    exact fun hc => absurd hc (not_le.mpr hq)
  have hsi2 : suggest_improvements
      { quality_threshold := none, max_iterations := some 3, iterations := some 2,
        issues := some i, complexity_score := none,
        quality_score := some (c8score i),
        suggestions := ["Address flagged code smells."] } = .ok (.nodeResult
      { state := { quality_threshold := none, max_iterations := some 3, iterations := some 2,
                   issues := some i, complexity_score := none,
                   quality_score := some (c8score i),
                   suggestions := ["Address flagged code smells.",
                                   "Address flagged code smells."] }
        next_node := none
        log := some ("Added " ++ toString (1 : ℕ) ++ " suggestions") }) := by
    simp only [suggest_improvements, Option.getD_none, Option.getD_some]
    norm_num [hipos]
  have hcq3 : check_quality
      { quality_threshold := none, max_iterations := some 3, iterations := some 2,
        issues := some i, complexity_score := none,
        quality_score := some (c8score i),
        suggestions := ["Address flagged code smells.",
                        "Address flagged code smells."] } = .ok (.nodeResult
      { state := { quality_threshold := none, max_iterations := some 3, iterations := some 3,
                   issues := some i, complexity_score := none,
                   quality_score := some (c8score i),
                   suggestions := ["Address flagged code smells.",
                                   "Address flagged code smells."] }
        next_node := none
        log := some ("Quality score " ++ toString (c8score i) ++ " (iteration " ++
          toString (3 : ℤ) ++ ")" ++ " -> stop") }) := by
    simp only [check_quality, c8score, Option.getD_none, Option.getD_some]
    norm_num
  have E := (executeFuel_step_override qualityGateGraph 9 "check_quality" (by decide)
      check_quality rfl _ _ _ _ (run_node_nodeResult _ _ _ hcq1) []).trans
    ((executeFuel_step_edges qualityGateGraph 8 "suggest_improvements" (by decide)
      suggest_improvements rfl _ _ _ (run_node_nodeResult _ _ _ hsi1) (by decide) _).trans
    ((executeFuel_step_override qualityGateGraph 7 "check_quality" (by decide)
      check_quality rfl _ _ _ _ (run_node_nodeResult _ _ _ hcq2) _).trans
    ((executeFuel_step_edges qualityGateGraph 6 "suggest_improvements" (by decide)
      suggest_improvements rfl _ _ _ (run_node_nodeResult _ _ _ hsi2) (by decide) _).trans
    ((executeFuel_step_edges qualityGateGraph 5 "check_quality" (by decide)
      check_quality rfl _ _ _ (run_node_nodeResult _ _ _ hcq3) (by decide) _).trans
      rfl))))
  have E10 := (rfl : executeFuel qualityGateGraph 10 (some "check_quality") (c8InitState i) []
      = executeFuel qualityGateGraph (9 + 1) (some "check_quality") (c8InitState i) []).trans E
  unfold run_graph
  rw [show qualityGateGraph.start_node = "check_quality" from rfl, E10]
  exact ⟨_, rfl, rfl, by simp, rfl⟩

/-- C8 witness: with five issues (score 0, below the 0.7 threshold forever),
the run completes after exactly three `check_quality` executions. -/
theorem c8_witness :
    ∃ rec, run_graph 10 qualityGateGraph (c8InitState 5) "r8" = some (rec, none) ∧
      rec.status = "completed" ∧
      rec.logs.countP (fun e => e.node == "check_quality") = 3 ∧
      rec.current_state.iterations = some 3 :=
  c8_iteration_cap 5 (by norm_num [c8score, round2, roundHalfEven])

end Theorems
